import Mathlib

/-!
Shallow embedding of the guardrails, rate-limiting and circuit-breaker
subsystem of the Dave chat gateway (services/dave/api/app), together with
theorems settling the specification claims about it.

Conventions of the embedding:
- timestamps are integers, read as whole seconds (the code compares
  real-valued clock readings against whole-second windows and the Redis
  path truncates with int()); the several clock reads inside one call
  are modelled as a single per-call timestamp;
- the process-wide circuit-breaker globals are an explicit state record
  threaded through the operations;
- the upstream transport outcome is an explicit parameter of each call
  (success with a text, or a transport failure);
- fallible collaborators are modelled with Except.
-/

namespace Dave

/-! ## Circuit breaker (app/clients/gemini.py)

Module globals `_circuit_failures`, `_circuit_open`, `_circuit_last_failure`
become the fields of `CircuitState`.  `FAILURE_THRESHOLD = 3` and
`RESET_TIMEOUT = 60.0` are inlined as the literals 3 and 60.
-/

structure CircuitState where
  failures : Nat
  isOpen : Bool
  lastFailure : ℤ
deriving DecidableEq, Repr

/-- Initial values of the module globals: 0 failures, closed, time 0.0. -/
def initCircuit : CircuitState := ⟨0, false, 0⟩

/-- Embeds `GeminiClient._check_circuit`: allow when closed, or when open
and at least RESET_TIMEOUT (60 s) elapsed since the last failure. -/
def checkCircuit (now : ℤ) (s : CircuitState) : Bool :=
  if !s.isOpen then true
  else if 60 ≤ now - s.lastFailure then true
  else false

/-- Embeds `GeminiClient._record_success`: reset the failure counter and
close the circuit; the last-failure time is not touched. -/
def recordSuccess (s : CircuitState) : CircuitState :=
  { failures := 0, isOpen := false, lastFailure := s.lastFailure }

/-- Embeds `GeminiClient._record_failure`: increment the counter, refresh
the last-failure time, and open the circuit once the counter reaches the
threshold 3. -/
def recordFailure (now : ℤ) (s : CircuitState) : CircuitState :=
  let f := s.failures + 1
  { failures := f
    isOpen := if 3 ≤ f then true else s.isOpen
    lastFailure := now }

/-- Errors surfaced by the generation calls: the distinct circuit-open
error (`GeminiCircuitOpenError`) or the re-raised transport error. -/
inductive GenError where
  | circuitOpen
  | upstream
deriving DecidableEq, Repr

/-- Result of one `generate` call: the returned value or raised error, the
circuit state afterwards, and whether the upstream transport was invoked. -/
structure GenOutcome where
  result : Except GenError String
  state : CircuitState
  invoked : Bool
deriving Repr

/-- Embeds `GeminiClient.generate`.  `upstream` is the outcome the
transport would produce if invoked: `.ok text` or `.error ()`. -/
def generate (s : CircuitState) (now : ℤ) (upstream : Except Unit String) :
    GenOutcome :=
  if checkCircuit now s then
    match upstream with
    | .ok text => ⟨.ok text, recordSuccess s, true⟩
    | .error _ => ⟨.error .upstream, recordFailure now s, true⟩
  else ⟨.error .circuitOpen, s, false⟩

/-- Result of one `generate_stream` call: the chunks yielded to the caller,
the error raised mid-stream if any, the circuit state afterwards, and
whether the upstream transport was invoked. -/
structure StreamOutcome where
  yielded : List String
  err : Option GenError
  state : CircuitState
  invoked : Bool
deriving Repr

/-- Embeds `GeminiClient.generate_stream`.  `delivered` is the list of
chunks the transport produces before it either finishes or (when `raises`
is true) raises; only non-empty chunks are yielded (`if chunk.text`), and
success is recorded only when at least one non-empty chunk was yielded
(`chunks_received`). -/
def generateStream (s : CircuitState) (now : ℤ) (delivered : List String)
    (raises : Bool) : StreamOutcome :=
  if checkCircuit now s then
    let yielded := delivered.filter (fun c => c ≠ "")
    if raises then ⟨yielded, some .upstream, recordFailure now s, true⟩
    else ⟨yielded, none, if yielded.isEmpty then s else recordSuccess s, true⟩
  else ⟨[], some .circuitOpen, s, false⟩

/-- States of the circuit breaker reachable from the initial globals by
the operations that mutate them (`_record_success`, `_record_failure`;
`_check_circuit` reads but never writes). -/
inductive ReachableCircuit : CircuitState → Prop where
  | init : ReachableCircuit initCircuit
  | success {s : CircuitState} :
      ReachableCircuit s → ReachableCircuit (recordSuccess s)
  | failure {s : CircuitState} (now : ℤ) :
      ReachableCircuit s → ReachableCircuit (recordFailure now s)

/-- Claim C1: from a closed circuit with a zero failure counter, exactly
three consecutive failed generation calls open the circuit and record the
failure time of the third call (after two failures it is still closed);
while the circuit is open, a call with now - lastFailure < 60 raises the
circuit-open error without invoking the upstream transport (both for
generate and generate_stream), and a call with now - lastFailure >= 60 is
allowed through to the transport as a probe. -/
theorem C1_circuit_breaker_gate :
    (∀ (s0 : CircuitState) (t1 t2 t3 : ℤ),
      s0.failures = 0 → s0.isOpen = false →
      (generate s0 t1 (.error ())).invoked = true ∧
      (generate s0 t1 (.error ())).state.isOpen = false ∧
      (generate (generate s0 t1 (.error ())).state t2 (.error ())).state.isOpen
        = false ∧
      (generate (generate (generate s0 t1 (.error ())).state t2
          (.error ())).state t3 (.error ())).state = ⟨3, true, t3⟩) ∧
    (∀ (s : CircuitState) (now : ℤ) (u : Except Unit String),
      s.isOpen = true → now - s.lastFailure < 60 →
      generate s now u = ⟨.error .circuitOpen, s, false⟩ ∧
      ∀ (d : List String) (r : Bool),
        generateStream s now d r = ⟨[], some .circuitOpen, s, false⟩) ∧
    (∀ (s : CircuitState) (now : ℤ) (u : Except Unit String)
        (d : List String) (r : Bool),
      s.isOpen = true → 60 ≤ now - s.lastFailure →
      (generate s now u).invoked = true ∧
      (generateStream s now d r).invoked = true) := by
  refine ⟨?thm1, ?thm2, ?thm3⟩
  · intro s0 t1 t2 t3 h0 h1
    rcases s0 with ⟨f0, o0, l0⟩
    simp only at h0 h1
    subst h0 h1
    simp [generate, checkCircuit, recordFailure]
  · intro s now u hOpen hLt
    have hc : checkCircuit now s = false := by
      simp [checkCircuit, hOpen, not_le.mpr hLt]
    constructor
    · simp [generate, hc]
    · intro d r
      simp [generateStream, hc]
  · intro s now u d r hOpen hGe
    have hc : checkCircuit now s = true := by
      simp [checkCircuit, hOpen, hGe]
    constructor
    · cases u <;> simp [generate, hc]
    · cases r <;> simp [generateStream, hc]

/-- Witness for C1 at concrete inputs: the fresh initial circuit and
failure times 1, 2, 3; then an open circuit probed 30 s and 90 s after
its last failure. -/
theorem C1_circuit_breaker_gate_witness :
    (generate (generate (generate initCircuit 1 (.error ())).state 2
        (.error ())).state 3 (.error ())).state = ⟨3, true, 3⟩ ∧
    generate ⟨3, true, 100⟩ 130 (.ok "hi") =
      ⟨.error .circuitOpen, ⟨3, true, 100⟩, false⟩ ∧
    (generate ⟨3, true, 100⟩ 190 (.ok "hi")).invoked = true :=
  ⟨(C1_circuit_breaker_gate.1 initCircuit 1 2 3 rfl rfl).2.2.2,
   (C1_circuit_breaker_gate.2.1 ⟨3, true, 100⟩ 130 (.ok "hi") rfl
      (by decide)).1,
   (C1_circuit_breaker_gate.2.2 ⟨3, true, 100⟩ 190 (.ok "hi") [] false rfl
      (by decide)).1⟩

/-- Claim C6: when generate_stream completes without raising, the circuit
state is reset only when at least one non-empty chunk was yielded; in
particular a completed stream whose chunks are all empty leaves the
failure counter, the open flag and the last failure time unchanged. -/
theorem C6_empty_stream_frame :
    (∀ (s : CircuitState) (now : ℤ) (delivered : List String),
      (generateStream s now delivered false).state =
        if checkCircuit now s then
          (if (delivered.filter (fun c => c ≠ "")).isEmpty then s
           else recordSuccess s)
        else s) ∧
    (∀ (s : CircuitState) (now : ℤ) (delivered : List String),
      (∀ c ∈ delivered, c = "") →
      (generateStream s now delivered false).state = s) := by
  have h1 : ∀ (s : CircuitState) (now : ℤ) (delivered : List String),
      (generateStream s now delivered false).state =
        if checkCircuit now s then
          (if (delivered.filter (fun c => c ≠ "")).isEmpty then s
           else recordSuccess s)
        else s := by
    intro s now delivered
    by_cases hc : checkCircuit now s <;> simp [generateStream, hc]
  refine ⟨h1, ?thm2⟩
  intro s now delivered hAll
  rw [h1]
  have hnil : delivered.filter (fun c => c ≠ "") = [] := by
    rw [List.filter_eq_nil_iff]
    intro a ha
    simp [hAll a ha]
  rw [hnil]
  simp

/-- Witness for C6: a completed stream of two empty chunks over the fresh
circuit leaves the state exactly at its initial value. -/
theorem C6_empty_stream_frame_witness :
    (generateStream initCircuit 7 ["", ""] false).state = initCircuit :=
  C6_empty_stream_frame.2 initCircuit 7 ["", ""] (by decide)

/-- Claim C8: in every state reachable from the initial circuit state by
the mutating operations (record success, record failure), the open flag
implies that the consecutive-failure counter is at least the threshold 3. -/
theorem C8_open_implies_threshold :
    ∀ (s : CircuitState), ReachableCircuit s → s.isOpen = true →
      3 ≤ s.failures := by
  intro s h
  induction h with
  | init => intro h0; simp [initCircuit] at h0
  | success _ _ => intro h0; simp [recordSuccess] at h0
  | failure now _ ih =>
    intro h0
    simp only [recordFailure] at h0 ⊢
    split at h0
    · omega
    · exact Nat.le_succ_of_le (ih h0)

/-- Witness for C8: the state after three recorded failures is reachable,
open, and its counter is indeed at least 3. -/
theorem C8_open_implies_threshold_witness :
    3 ≤ (recordFailure 5 (recordFailure 4 (recordFailure 3
      initCircuit))).failures :=
  C8_open_implies_threshold _
    (ReachableCircuit.failure 5 (ReachableCircuit.failure 4
      (ReachableCircuit.failure 3 ReachableCircuit.init))) rfl

/-! ## Rate limiter (app/guardrails/rate_limiter.py)

The dataclass `GuardrailResult` is shared by all guardrail modules.  The
in-memory backend keeps, per key, a list of (timestamp, tokens) pairs;
the Redis backend keeps two sorted sets of integer-second scores per key
(one per window), both fed by `_record_redis`.  Clock reads are a rational
`now` parameter; the Redis code truncates to whole seconds with `int()`,
modelled by `Int.floor`.
-/

structure GuardrailResult where
  blocked : Bool
  reason : Option String := none
  message : Option String := none
  severity : String := "low"
  detected_topic : Option String := none
deriving DecidableEq, Repr

/-- Result returned by both backends for a requests-per-minute block. -/
def minuteBlockResult : GuardrailResult :=
  ⟨true, some "rate_limit_minute",
   some ("You\x27ve sent several messages quickly. " ++
     "Please wait a moment before your next message. " ++
     "I\x27m still here to help!"),
   "low", none⟩

/-- Result returned by both backends for a requests-per-day block. -/
def dayBlockResult : GuardrailResult :=
  ⟨true, some "rate_limit_day",
   some ("You\x27ve reached your daily message limit. " ++
     "Please come back tomorrow, or consider upgrading " ++
     "for more conversations. I look forward to helping you more!"),
   "medium", none⟩

/-- Result returned by the in-memory backend for a tokens-per-minute
block. -/
def tokenBlockResult : GuardrailResult :=
  ⟨true, some "token_limit_minute",
   some ("I\x27ve been doing a lot of thinking for you! " ++
     "Let\x27s take a brief pause. Try again in a minute."),
   "low", none⟩

/-- Result for a request that is not blocked. -/
def passResult : GuardrailResult := ⟨false, none, none, "low", none⟩

structure RateLimitConfig where
  requests_per_minute : Nat
  requests_per_day : Nat
  tokens_per_minute : Nat
  tokens_per_day : Nat
deriving DecidableEq, Repr

def freeLimits : RateLimitConfig := ⟨5, 100, 1000, 10000⟩

/-- The fixed tier table `RateLimiter.TIER_LIMITS`. -/
def TIER_LIMITS : List (String × RateLimitConfig) :=
  [("free", freeLimits),
   ("basic", ⟨15, 500, 5000, 50000⟩),
   ("premium", ⟨30, 2000, 15000, 150000⟩),
   ("admin", ⟨100, 10000, 50000, 500000⟩)]

/-- Embeds `TIER_LIMITS.get(tier, TIER_LIMITS["free"])`: unknown tiers
fall back to the free tier. -/
def tierLimits (tier : String) : RateLimitConfig :=
  ((TIER_LIMITS.find? (fun p => p.1 == tier)).map Prod.snd).getD freeLimits

/-- Embeds `RateLimiter._clean_old_requests`: keep events strictly newer
than `now - window` (and, in the real code, store the kept list back into
`self._requests[key]` — the caller below threads that mutation). -/
def cleanOldRequests (events : List (ℤ × ℕ)) (now window : ℤ) :
    List (ℤ × ℕ) :=
  events.filter (fun e => now - window < e.1)

/-- Embeds `RateLimiter._check_memory`, returning the result together
with the stored event list after the two destructive window cleanups.
Note the second cleanup filters the list already pruned to the minute
window, exactly as the mutating source does. -/
def checkMemory (events : List (ℤ × ℕ)) (now : ℤ)
    (limits : RateLimitConfig) : GuardrailResult × List (ℤ × ℕ) :=
  let minuteRequests := cleanOldRequests events now 60
  if limits.requests_per_minute ≤ minuteRequests.length then
    (minuteBlockResult, minuteRequests)
  else
    let dayRequests := cleanOldRequests minuteRequests now 86400
    if limits.requests_per_day ≤ dayRequests.length then
      (dayBlockResult, dayRequests)
    else if limits.tokens_per_minute ≤ (minuteRequests.map Prod.snd).sum then
      (tokenBlockResult, dayRequests)
    else
      (passResult, dayRequests)

/-- Embeds `redis.zremrangebyscore(key, lo, hi)`: drop the members whose
score lies in the closed interval [lo, hi]. -/
def zremrangebyscore (z : List ℤ) (lo hi : ℤ) : List ℤ :=
  z.filter (fun ts => decide (¬(lo ≤ ts ∧ ts ≤ hi)))

/-- The two `zcard` results of the pipeline in `_check_redis`, taken
after the windowed `zremrangebyscore` prunes of the two sorted sets. -/
def checkRedisCounts (minuteZ dayZ : List ℤ) (now : ℤ) : ℕ × ℕ :=
  ((zremrangebyscore minuteZ 0 (now - 60)).length,
   (zremrangebyscore dayZ 0 (now - 86400)).length)

/-- Embeds `RateLimiter._check_redis` around the pipeline outcome: any
raised backend error is caught and the request is allowed (fail open);
otherwise the minute and day request counts are compared to the limits.
No token threshold is consulted on this path. -/
def checkRedisWith {ε : Type} (pipe : Except ε (ℕ × ℕ))
    (limits : RateLimitConfig) : GuardrailResult :=
  match pipe with
  | .error _ => passResult
  | .ok (m, d) =>
    if limits.requests_per_minute ≤ m then minuteBlockResult
    else if limits.requests_per_day ≤ d then dayBlockResult
    else passResult

/-- The Redis backend check when the pipeline succeeds. -/
def checkRedis (minuteZ dayZ : List ℤ) (now : ℤ)
    (limits : RateLimitConfig) : GuardrailResult :=
  checkRedisWith (ε := Unit) (.ok (checkRedisCounts minuteZ dayZ now)) limits

/-- Python truthiness of an optional string (None and "" are falsy). -/
def truthy (o : Option String) : Bool :=
  match o with
  | some s => !(s == "")
  | none => false

/-- Embeds `RateLimiter._get_key`. -/
def getKey (userId ipAddress : Option String) : String :=
  if truthy userId then "ratelimit:user:" ++ userId.getD ""
  else if truthy ipAddress then "ratelimit:ip:" ++ ipAddress.getD ""
  else "ratelimit:anonymous"

/-- Embeds `RateLimiter.check`: the `rate_limit_enabled` setting short
circuits to a pass; otherwise the key and tier limits are resolved and
the Redis backend is used when available, the in-memory one otherwise. -/
def rateLimiterCheck (enabled : Bool) (userId ipAddress : Option String)
    (tier : String) (hasRedis : Bool)
    (redisStore : String → List ℤ × List ℤ)
    (memStore : String → List (ℤ × ℕ)) (now : ℤ) : GuardrailResult :=
  if !enabled then passResult
  else
    let key := getKey userId ipAddress
    let limits := tierLimits tier
    if hasRedis then
      checkRedis (redisStore key).1 (redisStore key).2 now limits
    else
      (checkMemory (memStore key) now limits).1

/-- Characterization of the result component of `checkMemory`. -/
theorem checkMemory_fst (events : List (ℤ × ℕ)) (now : ℤ)
    (limits : RateLimitConfig) :
    (checkMemory events now limits).1 =
      (if limits.requests_per_minute ≤
          (cleanOldRequests events now 60).length then minuteBlockResult
       else if limits.requests_per_day ≤
          (cleanOldRequests (cleanOldRequests events now 60) now
            86400).length then dayBlockResult
       else if limits.tokens_per_minute ≤
          ((cleanOldRequests events now 60).map Prod.snd).sum then
         tokenBlockResult
       else passResult) := by
  by_cases h1 : limits.requests_per_minute ≤
      (cleanOldRequests events now 60).length
  · simp [checkMemory, h1]
  · by_cases h2 : limits.requests_per_day ≤
        (cleanOldRequests (cleanOldRequests events now 60) now 86400).length
    · simp [checkMemory, h1, h2]
    · by_cases h3 : limits.tokens_per_minute ≤
          ((cleanOldRequests events now 60).map Prod.snd).sum
      · simp [checkMemory, h1, h2, h3]
      · simp [checkMemory, h1, h2, h3]

/-- Claim C3 (code bug): the spec requires the minute and day windows to
be counted independently, with a requests-per-day violation blocked with
severity medium; but `_check_memory` first prunes the stored event list
to the minute window and then counts the day window on the pruned list,
so usage that violates only the day threshold is not blocked.  Failing
input: 100 recorded events two hours old under the free tier (day limit
100): the day window still holds 100 events, yet the check passes. -/
theorem C3_day_window_destroyed :
    freeLimits.requests_per_day ≤
      (cleanOldRequests (List.replicate 100 ((0 : ℤ), (0 : ℕ))) 7200
        86400).length ∧
    ((checkMemory (List.replicate 100 ((0 : ℤ), (0 : ℕ))) 7200
        freeLimits).1).blocked = false := by
  constructor
  · have h : cleanOldRequests (List.replicate 100 ((0 : ℤ), (0 : ℕ))) 7200
        86400 = List.replicate 100 ((0 : ℤ), (0 : ℕ)) := by
      unfold cleanOldRequests
      rw [List.filter_eq_self]
      intro a ha
      rw [List.eq_of_mem_replicate ha]
      norm_num
    rw [h]
    simp [freeLimits]
  · have h : cleanOldRequests (List.replicate 100 ((0 : ℤ), (0 : ℕ))) 7200
        60 = [] := by
      unfold cleanOldRequests
      rw [List.filter_eq_nil_iff]
      intro a ha
      rw [List.eq_of_mem_replicate ha]
      norm_num
    rw [checkMemory_fst, h]
    simp [freeLimits, cleanOldRequests, passResult,
      minuteBlockResult, dayBlockResult, tokenBlockResult]

/-- Counterexample to claim C4 as stated: the two backends are not
contract-equivalent.  The same recorded usage (a single request that
consumed 1000 tokens, recorded at time 0 in the memory list and in both
Redis sorted sets) under the free tier is blocked by the in-memory
backend (tokens-per-minute reached) but allowed by the Redis backend,
which never consults a token threshold. -/
theorem C4_backend_divergence :
    ((checkMemory [((0 : ℤ), 1000)] 0 freeLimits).1).blocked = true ∧
    (checkRedis [0] [0] 0 freeLimits).blocked = false := by
  constructor
  · rfl
  · rfl

/-- Claim C4 (amended): the two backends do agree on the
requests-per-minute rule — each returns exactly the rate_limit_minute
block precisely when at least requests_per_minute recorded events lie
strictly inside the trailing 60-second window of its store — but they
are not equivalent beyond it (no token threshold on the Redis path, and
the day count of the memory path is taken after the minute pruning). -/
theorem C4_minute_rule_agreement :
    ∀ (limits : RateLimitConfig),
      (∀ (events : List (ℤ × ℕ)) (now : ℤ),
        ((checkMemory events now limits).1 = minuteBlockResult ↔
          limits.requests_per_minute ≤
            (cleanOldRequests events now 60).length)) ∧
      (∀ (minuteZ dayZ : List ℤ) (now : ℤ),
        (checkRedis minuteZ dayZ now limits = minuteBlockResult ↔
          limits.requests_per_minute ≤
            (zremrangebyscore minuteZ 0 (now - 60)).length)) := by
  have hdm : dayBlockResult ≠ minuteBlockResult := by decide
  have htm : tokenBlockResult ≠ minuteBlockResult := by decide
  have hpm : passResult ≠ minuteBlockResult := by decide
  intro limits
  constructor
  · intro events now
    rw [checkMemory_fst]
    by_cases h1 : limits.requests_per_minute ≤
        (cleanOldRequests events now 60).length
    · simp [h1]
    · simp only [if_neg h1]
      constructor
      · intro h
        exfalso
        revert h
        split
        · exact fun h => hdm h
        · split
          · exact fun h => htm h
          · exact fun h => hpm h
      · intro h
        exact absurd h h1
  · intro minuteZ dayZ now
    unfold checkRedis checkRedisWith checkRedisCounts
    by_cases h1 : limits.requests_per_minute ≤
        (zremrangebyscore minuteZ 0 (now - 60)).length
    · simp [h1]
    · simp only [if_neg h1]
      constructor
      · intro h
        exfalso
        revert h
        split
        · exact fun h => hdm h
        · exact fun h => hpm h
      · intro h
        exact absurd h h1

/-- Claim C7: if the shared store raises during the check, the Redis
backend fails open — it returns an unblocked result rather than blocking
the request. -/
theorem C7_redis_fail_open :
    ∀ {ε : Type} (e : ε) (limits : RateLimitConfig),
      checkRedisWith (.error e) limits = passResult ∧
      passResult.blocked = false := by
  intro ε e limits
  exact ⟨rfl, rfl⟩

/-- Claim C10: with the rate_limit_enabled setting off, the check returns
an unblocked result for every identity, tier and recorded usage in either
backend — both stores are ignored. -/
theorem C10_disabled_flag_bypass :
    ∀ (userId ipAddress : Option String) (tier : String) (hasRedis : Bool)
      (redisStore : String → List ℤ × List ℤ)
      (memStore : String → List (ℤ × ℕ)) (now : ℤ),
      rateLimiterCheck false userId ipAddress tier hasRedis redisStore
        memStore now = passResult ∧
      passResult.blocked = false := by
  intro userId ipAddress tier hasRedis redisStore memStore now
  exact ⟨rfl, rfl⟩

/-! ## Topic classifier (app/guardrails/topic_classifier.py)

The check lowercases the message, splits it into the word set matched by
the regex token pattern (runs of alphanumeric characters or underscore),
and intersects it with the keyword tables.  Multi-word table entries can
never equal a single token, exactly as in the source, where the word set
is built from single tokens.
-/

/-- Characters matched by the word-token regex class: letters, digits and
the underscore (messages here are ASCII). -/
def isWordChar (c : Char) : Bool := c.isAlphanum || c == '_'

/-- Splits a character list into maximal runs of word characters; `acc`
holds the current run reversed. -/
def splitWords : List Char → List Char → List String
  | [], acc => if acc.isEmpty then [] else [String.mk acc.reverse]
  | c :: rest, acc =>
    if isWordChar c then splitWords rest (c :: acc)
    else if acc.isEmpty then splitWords rest []
    else String.mk acc.reverse :: splitWords rest []

/-- Lowercases every character of a string, as `str.lower()` does for
ASCII text. -/
def lowerStr (s : String) : String := String.mk (s.toList.map Char.toLower)

/-- The on-topic vocabulary `TopicClassifier.CAREER_KEYWORDS`. -/
def CAREER_KEYWORDS : List String :=
  ["job", "jobs", "career", "careers", "work", "working", "employment",
   "employed", "unemployed", "hiring", "hired", "hire", "apply",
   "application", "applying", "position", "role", "opportunity",
   "opportunities",
   "resume", "cv", "cover letter", "portfolio", "linkedin", "profile",
   "interview", "interviewing", "interviews", "meeting", "call",
   "skill", "skills", "experience", "qualification", "qualifications",
   "education", "training", "certification", "certificate", "degree",
   "workplace", "office", "coworker", "coworkers", "manager", "boss",
   "employer", "company", "companies", "organization", "business",
   "salary", "pay", "wage", "wages", "compensation", "benefits",
   "insurance", "401k", "pto", "vacation",
   "promotion", "raise", "growth", "advancement", "development",
   "networking", "network", "mentor", "mentoring",
   "recovery", "background", "gap", "explanation", "second chance",
   "fair chance", "background check", "record", "conviction",
   "employa", "dave", "match", "matching", "score", "employer"]

/-- The off-topic category vocabularies
`TopicClassifier.OFF_TOPIC_KEYWORDS`, in dictionary insertion order
(medical, therapy, legal, coding), which is the iteration order of the
category loop in `check`. -/
def OFF_TOPIC_KEYWORDS : List (String × List String) :=
  [("medical",
    ["doctor", "hospital", "medicine", "prescription", "symptoms",
     "diagnosis", "medical", "health condition", "treatment plan"]),
   ("therapy",
    ["therapist", "counselor", "depression", "anxiety", "trauma",
     "mental health", "suicidal", "self-harm"]),
   ("legal",
    ["lawyer", "attorney", "lawsuit", "sue", "court", "legal advice",
     "custody", "divorce"]),
   ("coding",
    ["python", "javascript", "code", "programming", "debug", "function",
     "api", "database", "algorithm"])]

/-- The redirect texts `TopicClassifier.REDIRECT_RESPONSES`. -/
def REDIRECT_RESPONSES : List (String × String) :=
  [("medical",
    "I appreciate you sharing that with me. While I care about your wellbeing, I\x27m best equipped to help with career-related questions. For health concerns, please reach out to a healthcare professional. Now, is there anything I can help you with regarding your job search?"),
   ("therapy",
    "Thank you for trusting me with that. I want to be honest - I\x27m a career coach, not a counselor. For personal challenges, please consider speaking with a mental health professional or your support network. In the meantime, how can I support your career goals?"),
   ("legal",
    "That sounds like a legal matter that\x27s beyond my expertise. I\x27d recommend consulting with a lawyer or legal aid organization. What I can help with is navigating the job search process. Is there anything career-related I can assist with?"),
   ("coding",
    "While I\x27d love to help with coding, my specialty is career coaching and job search support. For programming questions, sites like Stack Overflow are great resources. But if you\x27re looking for tech jobs or want to discuss your career in tech, I\x27m all ears!"),
   ("general",
    "That\x27s an interesting topic! I\x27m most helpful with career and job search questions though. Is there anything about your employment journey I can help with today?")]

/-- Dictionary access `REDIRECT_RESPONSES[category]` (the categories used
by `check` are always present). -/
def redirectResponse (topic : String) : String :=
  ((REDIRECT_RESPONSES.find? (fun p => p.1 == topic)).map Prod.snd).getD ""

/-- Python `str.strip()` followed by `len(...)`: the number of characters
left after removing leading and trailing whitespace. -/
def strippedLen (s : String) : Nat :=
  (((s.toList.dropWhile Char.isWhitespace).reverse.dropWhile
    Char.isWhitespace).reverse).length

/-- Intersection test of the word set with the career vocabulary. -/
def careerHit (words : List String) : Bool :=
  words.any (fun w => CAREER_KEYWORDS.contains w)

/-- First off-topic category whose vocabulary intersects the word set,
scanning in dictionary order. -/
def offTopicFind (words : List String) : Option (String × List String) :=
  OFF_TOPIC_KEYWORDS.find? (fun p => words.any (fun w => p.2.contains w))

/-- The lowercased word-token set of a message (`re.findall` of the word
pattern over `message.lower()`). -/
def wordsOf (message : String) : List String :=
  splitWords (lowerStr message).toList []

/-- Embeds `TopicClassifier.check`: career keywords pass first, then the
off-topic categories are scanned in order and the first hit blocks, then
messages whose stripped length is under 20 pass as greetings, and
anything else passes as general. -/
def topicCheck (message : String) : GuardrailResult :=
  let words := wordsOf message
  if careerHit words then
    { blocked := false, detected_topic := some "career" }
  else
    match offTopicFind words with
    | some p =>
      { blocked := true, reason := some "off_topic",
        message := some (redirectResponse p.1), severity := "low",
        detected_topic := some p.1 }
    | none =>
      if strippedLen message < 20 then
        { blocked := false, detected_topic := some "greeting" }
      else
        { blocked := false, detected_topic := some "general" }

/-- Counterexample to claim C5 as stated: the length exemption sits after
the keyword scans, so a message shorter than 20 stripped characters that
contains an off-topic keyword (and no career keyword) is blocked, here
with the legal redirect. -/
theorem C5_short_message_counterexample :
    strippedLen "i need a lawyer" < 20 ∧
    (topicCheck "i need a lawyer").blocked = true ∧
    (topicCheck "i need a lawyer").detected_topic = some "legal" := by
  refine ⟨by decide, ?tc1, ?tc2⟩ <;> rfl

/-- Claim C5 (amended): a message whose stripped length is under 20
characters passes unblocked provided it contains a career keyword or no
off-topic category keyword; with an off-topic keyword and no career
keyword even a short message is blocked. -/
theorem C5_short_message_pass :
    ∀ (message : String),
      strippedLen message < 20 →
      (careerHit (wordsOf message) = true ∨
       offTopicFind (wordsOf message) = none) →
      (topicCheck message).blocked = false := by
  intro message hlen h
  unfold topicCheck
  cases hc : careerHit (wordsOf message) with
  | true => simp [hc]
  | false =>
    rcases h with h | h
    · rw [hc] at h
      cases h
    · simp [hc, h, hlen]

/-- Witness for the amended claim C5: the greeting "hi" is short, matches
no off-topic category, and passes. -/
theorem C5_short_message_pass_witness :
    (topicCheck "hi").blocked = false :=
  C5_short_message_pass "hi" (by decide) (Or.inr (by decide))

/-! ## Streaming chat service (app/services/dave_chat.py)

The event stream of `DaveChatService.stream_response` is modelled as the
list of events the generator yields, as a function of the guardrail
outcome, the resource lookup outcome, the user message, and the chunks
the upstream delivers before either finishing or raising.  Collaborator
persistence calls (conversation store) are outside the quantification of
the claims and are modelled as non-raising.
-/

/-- Bool test that `needle` is a prefix of the character list. -/
def isPrefixCL : List Char → List Char → Bool
  | [], _ => true
  | _ :: _, [] => false
  | a :: as, b :: bs => a == b && isPrefixCL as bs

/-- Bool test that `needle` occurs as a contiguous run somewhere in the
second list, the semantics of the Python `in` test on strings. -/
def containsSeq (needle : List Char) : List Char → Bool
  | [] => needle.isEmpty
  | c :: rest => isPrefixCL needle (c :: rest) || containsSeq needle rest

/-- Substring test `needle in hay` on strings. -/
def containsSub (hay needle : String) : Bool :=
  containsSeq needle.toList hay.toList

set_option linter.unusedVariables false in
/-- Embeds `DaveChatService._generate_suggestions`: rule-based keyword
matching on the lowercased user message (the lowercased response is
computed by the source but never consulted by any branch); the final
else branch supplies the generic defaults; the result is capped at 3. -/
def generateSuggestions (userMessage response : String) : List String :=
  let userLower := lowerStr userMessage
  let suggestions :=
    if ["job", "work", "hire", "employ"].any
        (fun w => containsSub userLower w) then
      ["What types of jobs match my skills?",
       "How do I explain gaps in my resume?"]
    else if ["resume", "cv"].any (fun w => containsSub userLower w) then
      ["Can you help me write a cover letter?",
       "How should I format my resume?"]
    else if ["interview"].any (fun w => containsSub userLower w) then
      ["What questions should I prepare for?",
       "How do I handle background check questions?"]
    else if ["recovery", "background", "record"].any
        (fun w => containsSub userLower w) then
      ["Which employers are recovery-friendly?",
       "How do I frame my journey positively?"]
    else
      ["Tell me more about job opportunities",
       "How can Employa help me?"]
  suggestions.take 3

/-- Events yielded over the SSE stream, with the payloads the claims
inspect (token content, suggestion list, final text). -/
inductive StreamEvent where
  | token (content : String)
  | resource
  | suggestion (items : List String)
  | done (fullResponse : String)
  | error
deriving DecidableEq, Repr

/-- Embeds `DaveChatService.stream_response`: a blocked guardrail result
yields a single error event; otherwise one resource event when resources
were requested and found, one token event per non-empty upstream chunk in
arrival order, then either a single error event (upstream raised) or the
suggestion event (when the computed suggestions are non-empty) followed
by the done event. -/
def streamResponse (g : GuardrailResult) (includeResources : Bool)
    (resources : List String) (message : String) (delivered : List String)
    (raises : Bool) : List StreamEvent :=
  if g.blocked then [.error]
  else
    let yielded := delivered.filter (fun c => c ≠ "")
    let fullResponse := String.join yielded
    (if includeResources && !resources.isEmpty then [.resource] else [])
    ++ yielded.map StreamEvent.token
    ++ (if raises then [.error]
        else
          let suggestions := generateSuggestions message fullResponse
          (if suggestions.isEmpty then []
           else [.suggestion suggestions]) ++ [.done fullResponse])

/-- Strips one leading resource event, the `resource?` regex atom. -/
def dropOptResource : List StreamEvent → List StreamEvent
  | .resource :: rest => rest
  | es => es

/-- Strips leading token events, the `token*` regex atom. -/
def dropTokens : List StreamEvent → List StreamEvent
  | .token _ :: rest => dropTokens rest
  | es => es

/-- Strips one leading suggestion event, the `suggestion?` regex atom. -/
def dropOptSuggestion : List StreamEvent → List StreamEvent
  | .suggestion _ :: rest => rest
  | es => es

/-- Decides whether an event list matches
`resource? token* suggestion? (done|error)`. -/
def matchesPattern (es : List StreamEvent) : Bool :=
  match dropOptSuggestion (dropTokens (dropOptResource es)) with
  | [.done _] => true
  | [.error] => true
  | _ => false

/-- Terminal events of the protocol. -/
def isTerminal : StreamEvent → Bool
  | .done _ => true
  | .error => true
  | _ => false

/-- Suggestion recognizer. -/
def isSuggestion : StreamEvent → Bool
  | .suggestion _ => true
  | _ => false

/-- Resource recognizer. -/
def isResource : StreamEvent → Bool
  | .resource => true
  | _ => false

/-- Token payload extractor. -/
def tokContent : StreamEvent → Option String
  | .token c => some c
  | _ => none

/-- Leading tokens are consumed by `dropTokens`. -/
theorem dropTokens_token_append (ys : List String)
    (rest : List StreamEvent) :
    dropTokens (ys.map StreamEvent.token ++ rest) = dropTokens rest := by
  induction ys with
  | nil => rfl
  | cons y ys ih => exact ih

/-- Token events carry back exactly their contents. -/
theorem filterMap_tokContent_map (ys : List String) :
    List.filterMap (tokContent ∘ StreamEvent.token) ys = ys := by
  induction ys with
  | nil => rfl
  | cons y ys ih => simp [Function.comp, tokContent, ih]

/-- Token events are neither terminal, nor resource, nor suggestion. -/
theorem countP_map_token_eq_zero (ys : List String)
    (p : StreamEvent → Bool) (hp : ∀ c, p (StreamEvent.token c) = false) :
    (ys.map StreamEvent.token).countP p = 0 := by
  rw [List.countP_eq_zero]
  intro a ha
  rcases List.mem_map.mp ha with ⟨c, _, rfl⟩
  simp [hp c]

/-- Every event list of the shape produced by the non-blocked branch of
`streamResponse` — an optional resource event, token events, and one of
the three closing shapes — satisfies the protocol invariants. -/
theorem streamShape (R T : List StreamEvent) (ys : List String)
    (hR : R = [] ∨ R = [StreamEvent.resource])
    (hT : T = [StreamEvent.error] ∨ (∃ f, T = [StreamEvent.done f]) ∨
          (∃ s f, T = [StreamEvent.suggestion s, StreamEvent.done f])) :
    matchesPattern (R ++ ys.map StreamEvent.token ++ T) = true ∧
    (R ++ ys.map StreamEvent.token ++ T).filterMap tokContent = ys ∧
    (R ++ ys.map StreamEvent.token ++ T).countP isTerminal = 1 ∧
    (R ++ ys.map StreamEvent.token ++ T).countP isResource ≤ 1 ∧
    (R ++ ys.map StreamEvent.token ++ T).countP isSuggestion ≤ 1 ∧
    (StreamEvent.resource ∈ R ++ ys.map StreamEvent.token ++ T →
      (R ++ ys.map StreamEvent.token ++ T).head? =
        some StreamEvent.resource) := by
  have hTerm : (ys.map StreamEvent.token).countP isTerminal = 0 :=
    countP_map_token_eq_zero ys isTerminal (fun c => rfl)
  have hRes : (ys.map StreamEvent.token).countP isResource = 0 :=
    countP_map_token_eq_zero ys isResource (fun c => rfl)
  have hSug : (ys.map StreamEvent.token).countP isSuggestion = 0 :=
    countP_map_token_eq_zero ys isSuggestion (fun c => rfl)
  have hMem : StreamEvent.resource ∉ ys.map StreamEvent.token := by
    intro h
    rcases List.mem_map.mp h with ⟨c, _, hc⟩
    cases hc
  rcases hR with rfl | rfl <;>
    rcases hT with rfl | ⟨f, rfl⟩ | ⟨s, f, rfl⟩
  · have hdo : dropOptResource
        (([] : List StreamEvent) ++ ys.map StreamEvent.token ++
          [StreamEvent.error]) =
        ys.map StreamEvent.token ++ [StreamEvent.error] := by
      cases ys <;> rfl
    refine ⟨?_, ?_, ?_, ?_, ?_, ?_⟩
    · unfold matchesPattern
      rw [hdo, dropTokens_token_append]
      rfl
    · simp [List.filterMap_append, filterMap_tokContent_map, tokContent,
        Function.comp]
    · simp [List.countP_append, hTerm, isTerminal]
    · simp [List.countP_append, hRes, isResource]
    · simp [List.countP_append, hSug, isSuggestion]
    · intro h
      rcases List.mem_append.mp h with h | h
      · rcases List.mem_append.mp h with h | h
        · cases h
        · exact absurd h hMem
      · simp at h
  · have hdo : dropOptResource
        (([] : List StreamEvent) ++ ys.map StreamEvent.token ++
          [StreamEvent.done f]) =
        ys.map StreamEvent.token ++ [StreamEvent.done f] := by
      cases ys <;> rfl
    refine ⟨?_, ?_, ?_, ?_, ?_, ?_⟩
    · unfold matchesPattern
      rw [hdo, dropTokens_token_append]
      rfl
    · simp [List.filterMap_append, filterMap_tokContent_map, tokContent,
        Function.comp]
    · simp [List.countP_append, hTerm, isTerminal]
    · simp [List.countP_append, hRes, isResource]
    · simp [List.countP_append, hSug, isSuggestion]
    · intro h
      rcases List.mem_append.mp h with h | h
      · rcases List.mem_append.mp h with h | h
        · cases h
        · exact absurd h hMem
      · simp at h
  · have hdo : dropOptResource
        (([] : List StreamEvent) ++ ys.map StreamEvent.token ++
          [StreamEvent.suggestion s, StreamEvent.done f]) =
        ys.map StreamEvent.token ++
          [StreamEvent.suggestion s, StreamEvent.done f] := by
      cases ys <;> rfl
    refine ⟨?_, ?_, ?_, ?_, ?_, ?_⟩
    · unfold matchesPattern
      rw [hdo, dropTokens_token_append]
      rfl
    · simp [List.filterMap_append, filterMap_tokContent_map, tokContent,
        Function.comp]
    · simp [List.countP_append, hTerm, isTerminal]
    · simp [List.countP_append, hRes, isResource]
    · simp [List.countP_append, hSug, isSuggestion]
    · intro h
      rcases List.mem_append.mp h with h | h
      · rcases List.mem_append.mp h with h | h
        · cases h
        · exact absurd h hMem
      · simp at h
  · refine ⟨?_, ?_, ?_, ?_, ?_, ?_⟩
    · unfold matchesPattern
      have hdo2 : dropOptResource
          (([StreamEvent.resource] : List StreamEvent) ++
            ys.map StreamEvent.token ++ [StreamEvent.error]) =
          ys.map StreamEvent.token ++ [StreamEvent.error] := rfl
      rw [hdo2, dropTokens_token_append]
      rfl
    · simp [List.filterMap_append, filterMap_tokContent_map, tokContent,
        Function.comp]
    · simp [List.countP_append, hTerm, isTerminal]
    · simp [List.countP_append, hRes, isResource]
    · simp [List.countP_append, hSug, isSuggestion]
    · intro _
      rfl
  · refine ⟨?_, ?_, ?_, ?_, ?_, ?_⟩
    · unfold matchesPattern
      have hdo2 : dropOptResource
          (([StreamEvent.resource] : List StreamEvent) ++
            ys.map StreamEvent.token ++ [StreamEvent.done f]) =
          ys.map StreamEvent.token ++ [StreamEvent.done f] := rfl
      rw [hdo2, dropTokens_token_append]
      rfl
    · simp [List.filterMap_append, filterMap_tokContent_map, tokContent,
        Function.comp]
    · simp [List.countP_append, hTerm, isTerminal]
    · simp [List.countP_append, hRes, isResource]
    · simp [List.countP_append, hSug, isSuggestion]
    · intro _
      rfl
  · refine ⟨?_, ?_, ?_, ?_, ?_, ?_⟩
    · unfold matchesPattern
      have hdo2 : dropOptResource
          (([StreamEvent.resource] : List StreamEvent) ++
            ys.map StreamEvent.token ++
            [StreamEvent.suggestion s, StreamEvent.done f]) =
          ys.map StreamEvent.token ++
            [StreamEvent.suggestion s, StreamEvent.done f] := rfl
      rw [hdo2, dropTokens_token_append]
      rfl
    · simp [List.filterMap_append, filterMap_tokContent_map, tokContent,
        Function.comp]
    · simp [List.countP_append, hTerm, isTerminal]
    · simp [List.countP_append, hRes, isResource]
    · simp [List.countP_append, hSug, isSuggestion]
    · intro _
      rfl

/-- Claim C2: for every guardrail outcome, resource lookup outcome,
message and upstream chunk sequence (with or without a mid-stream raise),
the emitted event list matches resource? token* suggestion? (done|error):
the token payloads are exactly the non-empty chunks in arrival order,
there is exactly one terminal event, at most one resource event and at
most one suggestion event, and a resource event can only come first. -/
theorem C2_stream_event_pattern :
    ∀ (g : GuardrailResult) (includeResources : Bool)
      (resources : List String) (message : String)
      (delivered : List String) (raises : Bool) (es : List StreamEvent),
      es = streamResponse g includeResources resources message delivered
        raises →
      matchesPattern es = true ∧
      es.filterMap tokContent =
        (if g.blocked then [] else delivered.filter (fun c => c ≠ "")) ∧
      es.countP isTerminal = 1 ∧
      es.countP isResource ≤ 1 ∧
      es.countP isSuggestion ≤ 1 ∧
      (StreamEvent.resource ∈ es → es.head? = some StreamEvent.resource) := by
  intro g includeResources resources message delivered raises es hes
  subst hes
  by_cases hb : g.blocked
  · simp only [streamResponse, hb, if_true]
    refine ⟨rfl, ?_, rfl, ?_, ?_, ?_⟩
    · simp [tokContent]
    · decide
    · decide
    · intro h
      simp at h
  · simp only [streamResponse, hb, if_false, Bool.false_eq_true]
    have h := streamShape
      (if includeResources && !resources.isEmpty then
        [StreamEvent.resource] else [])
      (if raises then [StreamEvent.error]
       else
         (if (generateSuggestions message (String.join
             (delivered.filter (fun c => c ≠ "")))).isEmpty then []
          else [StreamEvent.suggestion (generateSuggestions message
            (String.join (delivered.filter (fun c => c ≠ ""))))]) ++
         [StreamEvent.done (String.join
           (delivered.filter (fun c => c ≠ "")))])
      (delivered.filter (fun c => c ≠ ""))
      (by split <;> simp)
      (by
        split
        · exact Or.inl rfl
        · split
          · exact Or.inr (Or.inl ⟨_, rfl⟩)
          · exact Or.inr (Or.inr ⟨_, _, rfl⟩))
    simpa using h

/-- Witness for C2: a pass-through guardrail result, one resource, chunks
"a", "", "b" and no raise. -/
theorem C2_stream_event_pattern_witness :
    matchesPattern (streamResponse passResult true ["r"] "hi"
      ["a", "", "b"] false) = true ∧
    (streamResponse passResult true ["r"] "hi" ["a", "", "b"]
      false).filterMap tokContent =
      (if passResult.blocked then []
       else ["a", "", "b"].filter (fun c => c ≠ "")) ∧
    (streamResponse passResult true ["r"] "hi" ["a", "", "b"]
      false).countP isTerminal = 1 ∧
    (streamResponse passResult true ["r"] "hi" ["a", "", "b"]
      false).countP isResource ≤ 1 ∧
    (streamResponse passResult true ["r"] "hi" ["a", "", "b"]
      false).countP isSuggestion ≤ 1 ∧
    (StreamEvent.resource ∈ streamResponse passResult true ["r"] "hi"
      ["a", "", "b"] false →
      (streamResponse passResult true ["r"] "hi" ["a", "", "b"]
        false).head? = some StreamEvent.resource) :=
  C2_stream_event_pattern passResult true ["r"] "hi" ["a", "", "b"] false
    _ rfl

/-- Claim C9: the rule-based suggestion list is never empty and holds at
most 3 entries (each branch, the generic default included, contributes
two); consequently every stream that passes the guardrails and completes
without an upstream raise ends with a suggestion event directly followed
by the done event. -/
theorem C9_suggestions_always_emitted :
    (∀ (userMessage response : String),
      1 ≤ (generateSuggestions userMessage response).length ∧
      (generateSuggestions userMessage response).length ≤ 3) ∧
    (∀ (g : GuardrailResult) (includeResources : Bool)
        (resources : List String) (message : String)
        (delivered : List String),
      g.blocked = false →
      ∃ (pre : List StreamEvent) (items : List String) (full : String),
        streamResponse g includeResources resources message delivered false
          = pre ++ [StreamEvent.suggestion items, StreamEvent.done full]) := by
  have hlen : ∀ (u r : String),
      1 ≤ (generateSuggestions u r).length ∧
      (generateSuggestions u r).length ≤ 3 := by
    intro u r
    simp only [generateSuggestions]
    constructor <;> (repeat' split) <;> simp
  refine ⟨hlen, ?_⟩
  intro g includeResources resources message delivered hb
  simp only [streamResponse, hb, if_false, Bool.false_eq_true]
  have hne : (generateSuggestions message (String.join
      (delivered.filter (fun c => c ≠ "")))).isEmpty = false := by
    rcases hsugg : generateSuggestions message (String.join
        (delivered.filter (fun c => c ≠ ""))) with _ | ⟨a, l⟩
    · have := (hlen message (String.join
        (delivered.filter (fun c => c ≠ "")))).1
      rw [hsugg] at this
      simp at this
    · rfl
  refine ⟨(if includeResources && !resources.isEmpty then
      [StreamEvent.resource] else []) ++
      (delivered.filter (fun c => c ≠ "")).map StreamEvent.token,
    generateSuggestions message (String.join
      (delivered.filter (fun c => c ≠ ""))),
    String.join (delivered.filter (fun c => c ≠ "")), ?_⟩
  rw [hne]
  simp

/-- Witness for C9: the message "hello" hits the default branch with two
suggestions, and a completed two-chunk stream ends suggestion-then-done. -/
theorem C9_suggestions_always_emitted_witness :
    (1 ≤ (generateSuggestions "hello" "x").length ∧
      (generateSuggestions "hello" "x").length ≤ 3) ∧
    (∃ (pre : List StreamEvent) (items : List String) (full : String),
      streamResponse passResult false [] "hello" ["hey"] false
        = pre ++ [StreamEvent.suggestion items, StreamEvent.done full]) :=
  ⟨C9_suggestions_always_emitted.1 "hello" "x",
   C9_suggestions_always_emitted.2 passResult false [] "hello" ["hey"] rfl⟩

end Dave
